import Mathlib

/-!
# Verification of the AAB→APK converter (`src/apk/aab_to_apk.py`)

Shallow embedding of the single-file AAB-to-APK conversion script.
Strings from the Python side are modelled as `List Char`
(Python iterates over lines of text and manipulates them character-wise);
file-system state, the environment and the two external-tool invocations are
abstracted into a `World` record, and the observable side effects of a run are
collected into an explicit event trace.

Abstractions (each noted again at its definition):
* `str.strip()` is modelled over the ASCII whitespace characters Python strips
  (space, tab, newline, carriage return, vertical tab, form feed).
* The name of the temporary directory chosen by `tempfile.TemporaryDirectory`
  is modelled by the fixed string `tmpDirName`.
* CPython's `unicode_escape` codec is modelled byte-for-byte for every escape
  class it defines, except that `\N{NAME}` resolution and lone-surrogate
  code points (not representable by Lean `Char`) are mapped to a decode error.
* `print` calls to standard output are not modelled; the standard-error output
  of `main` is.
-/

namespace AabToApk

/-! ## Python string primitives -/

/-- Characters removed by Python's `str.strip()` (ASCII whitespace). -/
def pyIsSpace (c : Char) : Bool :=
  c = ' ' || c = '\t' || c = '\n' || c = '\x0b' || c = '\x0c' || c = '\r'

/-- Python `str.lstrip()`. -/
def lstripP (s : List Char) : List Char := s.dropWhile pyIsSpace

/-- Python `str.rstrip()`. -/
def rstripP (s : List Char) : List Char := (s.reverse.dropWhile pyIsSpace).reverse

/-- Python `str.strip()`. -/
def pyStrip (s : List Char) : List Char := rstripP (lstripP s)

/-- Python `line.split('=', 1)` under the guard `'=' in line`:
`none` when the line has no `=`, otherwise the part before the first `=`
and the part after it. -/
def splitFirstEq : List Char → Option (List Char × List Char)
  | [] => none
  | c :: rest =>
    if c = '=' then some ([], rest)
    else
      match splitFirstEq rest with
      | none => none
      | some (k, v) => some (c :: k, v)

/-- Python `value.replace('\\\\', '\\')`: left-to-right, non-overlapping
replacement of a double backslash by a single backslash. -/
def replDouble : List Char → List Char
  | '\\' :: '\\' :: rest => '\\' :: replDouble rest
  | c :: rest => c :: replDouble rest
  | [] => []

/-- Python `value.replace('\\:', ':')`: left-to-right replacement of
backslash-colon by a colon. -/
def replColon : List Char → List Char
  | '\\' :: ':' :: rest => ':' :: replColon rest
  | c :: rest => c :: replColon rest
  | [] => []

/-! ## The `unicode_escape` decode used on the keystore path

`value.encode().decode('unicode_escape')` first encodes the text as UTF-8
bytes, then decodes those bytes as a Python-string-literal style escape
sequence, treating every non-escape byte as a Latin-1 character. -/

/-- UTF-8 encoding of one character, as a byte list. -/
def utf8EncodeChar (c : Char) : List Nat :=
  let n := c.toNat
  if n < 128 then [n]
  else if n < 2048 then [192 + n / 64, 128 + n % 64]
  else if n < 65536 then [224 + n / 4096, 128 + (n / 64) % 64, 128 + n % 64]
  else [240 + n / 262144, 128 + (n / 4096) % 64, 128 + (n / 64) % 64, 128 + n % 64]

/-- UTF-8 encoding of a string (Python `str.encode()`). -/
def utf8Encode (s : List Char) : List Nat := (s.map utf8EncodeChar).flatten

/-- Is the byte an ASCII octal digit `0`-`7`? -/
def isOctB (b : Nat) : Bool := 48 ≤ b && b ≤ 55

/-- Is the byte an ASCII hexadecimal digit? -/
def isHexB (b : Nat) : Bool :=
  (48 ≤ b && b ≤ 57) || (97 ≤ b && b ≤ 102) || (65 ≤ b && b ≤ 70)

/-- Numeric value of an ASCII hexadecimal digit byte. -/
def hexV (b : Nat) : Nat :=
  if b ≤ 57 then b - 48 else if b ≤ 70 then b - 55 else b - 87

/-- Numeric value of an ASCII octal digit byte. -/
def octV (b : Nat) : Nat := b - 48

/-- Prepend one character to an optional decode result. -/
def ocons (c : Char) (o : Option (List Char)) : Option (List Char) :=
  o.map (fun t => c :: t)

/-- Fuel-indexed body of the `unicode_escape` decoder; every step consumes at
least one input byte, so `fuel = length + 1` always suffices and the
out-of-fuel branch is unreachable on the actual entry point `uesc`. -/
def uescF : Nat → List Nat → Option (List Char)
  | 0, _ => none
  | _, [] => some []
  | fuel + 1, b :: rest =>
    if b ≠ 92 then ocons (Char.ofNat b) (uescF fuel rest)
    else
      match rest with
      | [] => none
      | e :: r =>
        if e = 10 then uescF fuel r
        else if e = 92 then ocons (Char.ofNat 92) (uescF fuel r)
        else if e = 39 then ocons (Char.ofNat 39) (uescF fuel r)
        else if e = 34 then ocons (Char.ofNat 34) (uescF fuel r)
        else if e = 98 then ocons (Char.ofNat 8) (uescF fuel r)
        else if e = 102 then ocons (Char.ofNat 12) (uescF fuel r)
        else if e = 116 then ocons (Char.ofNat 9) (uescF fuel r)
        else if e = 110 then ocons (Char.ofNat 10) (uescF fuel r)
        else if e = 114 then ocons (Char.ofNat 13) (uescF fuel r)
        else if e = 118 then ocons (Char.ofNat 11) (uescF fuel r)
        else if e = 97 then ocons (Char.ofNat 7) (uescF fuel r)
        else if isOctB e then
          match r with
          | d2 :: r2 =>
            if isOctB d2 then
              match r2 with
              | d3 :: r3 =>
                if isOctB d3 then
                  ocons (Char.ofNat (octV e * 64 + octV d2 * 8 + octV d3)) (uescF fuel r3)
                else ocons (Char.ofNat (octV e * 8 + octV d2)) (uescF fuel r2)
              | [] => ocons (Char.ofNat (octV e * 8 + octV d2)) (uescF fuel r2)
            else ocons (Char.ofNat (octV e)) (uescF fuel r)
          | [] => ocons (Char.ofNat (octV e)) (uescF fuel r)
        else if e = 120 then
          match r with
          | h1 :: h2 :: r2 =>
            if isHexB h1 && isHexB h2 then
              ocons (Char.ofNat (hexV h1 * 16 + hexV h2)) (uescF fuel r2)
            else none
          | _ => none
        else if e = 117 then
          match r with
          | h1 :: h2 :: h3 :: h4 :: r2 =>
            if isHexB h1 && isHexB h2 && isHexB h3 && isHexB h4 then
              let n := hexV h1 * 4096 + hexV h2 * 256 + hexV h3 * 16 + hexV h4
              if 55296 ≤ n && n ≤ 57343 then none
              else ocons (Char.ofNat n) (uescF fuel r2)
            else none
          | _ => none
        else if e = 85 then
          match r with
          | h1 :: h2 :: h3 :: h4 :: h5 :: h6 :: h7 :: h8 :: r2 =>
            if isHexB h1 && isHexB h2 && isHexB h3 && isHexB h4 &&
               isHexB h5 && isHexB h6 && isHexB h7 && isHexB h8 then
              let n := hexV h1 * 268435456 + hexV h2 * 16777216 + hexV h3 * 1048576 +
                hexV h4 * 65536 + hexV h5 * 4096 + hexV h6 * 256 + hexV h7 * 16 + hexV h8
              if n > 1114111 || (55296 ≤ n && n ≤ 57343) then none
              else ocons (Char.ofNat n) (uescF fuel r2)
            else none
          | _ => none
        else if e = 78 then none
        else ocons (Char.ofNat 92) (ocons (Char.ofNat e) (uescF fuel r))

/-- CPython's `bytes.decode('unicode_escape')`: `some` decoded characters, or
`none` when the codec raises. Recognised escapes follow the CPython decoder:
line continuation, the named single-character escapes, 1-3 octal digits,
`\xhh`, `\uhhhh`, `\Uhhhhhhhh` (bounded by the maximal code point); an
unknown escape keeps the backslash and the following byte; a trailing lone
backslash, a malformed hex escape and a `\N` escape raise. (`\N{NAME}` with a
valid name and lone-surrogate `\u` escapes succeed in CPython; the name
database and surrogate code points are outside this model, so both are mapped
to the error case, which no theorem below exercises.) -/
def uesc (bs : List Nat) : Option (List Char) := uescF (bs.length + 1) bs

/-! ## The properties reader (`_read_signing_properties`) -/

/-- The `release.keystore` key. -/
def kKeystore : List Char := "release.keystore".toList

/-- The four required signing keys, in the order the source lists them. -/
def requiredKeys : List (List Char) :=
  [kKeystore, "keystore.password".toList, "key.alias".toList, "key.password".toList]

/-- The keystore-value transformation applied when the key is
`release.keystore`: double-backslash and escaped-colon replacement followed by
a best-effort `unicode_escape` decode whose failure keeps the replaced value. -/
def unescapeKeystore (v : List Char) : List Char :=
  let v2 := replColon (replDouble v)
  match uesc (utf8Encode v2) with
  | some d => d
  | none => v2

/-- Processing of one line of the properties file: strip, skip blank lines,
comment lines and lines without `=`; otherwise split on the first `=`, strip
key and value, and unescape the value when the key is `release.keystore`. -/
def parseLine (raw : List Char) : Option (List Char × List Char) :=
  let line := pyStrip raw
  if line = [] then none
  else if line.head? = some '#' then none
  else
    match splitFirstEq line with
    | none => none
    | some (k, v) =>
      let key := pyStrip k
      let value := pyStrip v
      some (key, if key = kKeystore then unescapeKeystore value else value)

/-- All key/value pairs produced by the line loop, in file order (duplicate
keys keep every occurrence; lookup takes the last one, see `lookupProp`). -/
def parseProps (lines : List (List Char)) : List (List Char × List Char) :=
  lines.filterMap parseLine

/-- Lookup in the parsed pairs with Python-`dict` semantics: the value of the
last line that assigned the key. -/
def lookupProp (props : List (List Char × List Char)) (k : List Char) :
    Option (List Char) :=
  match props with
  | [] => none
  | (k2, v) :: rest =>
    match lookupProp rest k with
    | some v2 => some v2
    | none => if k2 = k then some v else none

/-- The required keys that are absent from the parsed properties, in required
order (`[key for key in required_keys if key not in properties]`). -/
def missingKeys (props : List (List Char × List Char)) : List (List Char) :=
  requiredKeys.filter (fun k => (lookupProp props k).isNone)

/-! ## Errors, the world, and the event trace -/

/-- The exceptions the script can raise, keyed by the spec's taxonomy:
`FileNotFoundError` (with its message), `ValueError` for missing properties
(with the missing keys), `RuntimeError` for a missing Java,
`subprocess.CalledProcessError` (with argv, return code, captured stdout and
stderr), and the `RuntimeError` for a missing `universal.apk`. -/
inductive Err where
  | fileNotFound (msg : String)
  | missingProperty (keys : List (List Char))
  | runtimeUnavailable
  | externalToolFailure (cmd : List String) (returncode : Nat) (stdout stderr : String)
  | artifactMissing
deriving DecidableEq, Repr

/-- Outcome of one `subprocess.run(..., capture_output=True, text=True)`. -/
structure RunResult where
  returncode : Nat
  stdout : String
  stderr : String
deriving DecidableEq, Repr

/-- The environment a run observes: whether `java -version` succeeds, the
`JAVA_HOME` variable, which paths exist, the readable text files (as lines),
the outcomes of the two bundletool invocations, and whether the extraction
leaves `universal.apk` in the temporary directory. -/
structure World where
  javaProbeOk : Bool
  javaHome : Option String
  pathExists : String → Bool
  fileLines : String → Option (List (List Char))
  buildRun : RunResult
  extractRun : RunResult
  universalApkExists : Bool

/-- Observable side effects of a run, in order: a spawned subprocess, the
`mkdir(parents=True, exist_ok=True)` of the output file's parent directory,
a file written, a file copied, and creation/removal of the scoped temporary
directory. -/
inductive Event where
  | spawn (cmd : List String)
  | mkdirParents (outputFile : String)
  | writeFile (path content : String)
  | copyFile (src dst : String)
  | tempCreate
  | tempRemove
deriving DecidableEq, Repr

deriving instance DecidableEq for Except

/-- `true` exactly when the run raised. -/
def isErr {α : Type} : Except Err α → Bool
  | .error _ => true
  | .ok _ => false

/-- The subprocess invocations of a trace, in order. -/
def spawns (tr : List Event) : List (List String) :=
  tr.filterMap fun e =>
    match e with
    | .spawn c => some c
    | _ => none

/-- Is the event about the scoped temporary directory? -/
def isTempEvent : Event → Bool
  | .tempCreate => true
  | .tempRemove => true
  | _ => false

/-- Did the trace copy some file to the requested output path? -/
def producesOutputAt (tr : List Event) (outputFile : String) : Bool :=
  tr.any fun e =>
    match e with
    | .copyFile _ dst => dst = outputFile
    | _ => false

/-! ## The wrapper's operations -/

/-- `_find_java`: try `java -version`; on failure consult `JAVA_HOME` (Python
treats an empty value as unset) and accept `JAVA_HOME/bin/java` when it
exists; otherwise raise. POSIX path joining is assumed. -/
def find_java (w : World) : Except Err String :=
  if w.javaProbeOk then .ok "java"
  else
    match w.javaHome with
    | some h =>
      if h ≠ "" then
        if w.pathExists (h ++ "/bin/java") then .ok (h ++ "/bin/java")
        else .error .runtimeUnavailable
      else .error .runtimeUnavailable
    | none => .error .runtimeUnavailable

/-- `_read_signing_properties`: a missing file raises `FileNotFoundError`;
otherwise parse the lines and fail with the full list of missing required
keys when any is absent. (Other I/O errors, wrapped by the source into a
generic `RuntimeError`, are outside the model.) -/
def readSigningProperties (w : World) (propertiesFile : String) :
    Except Err (List (List Char × List Char)) :=
  match w.fileLines propertiesFile with
  | none => .error (.fileNotFound ("Properties file not found: " ++ propertiesFile))
  | some lines =>
    let props := parseProps lines
    if missingKeys props = [] then .ok props
    else .error (.missingProperty (missingKeys props))

/-- The keystore path the pipeline uses: `signing_props['release.keystore']`
(defaulting to the empty string, a case the callers rule out). -/
def keystorePath (props : List (List Char × List Char)) : String :=
  String.mk ((lookupProp props kKeystore).getD [])

/-- A signing property as the string handed to the command line. -/
def propStr (props : List (List Char × List Char)) (k : String) : String :=
  String.mk ((lookupProp props k.toList).getD [])

/-- `_validate_inputs`: check, in order, that the AAB, the bundletool JAR and
the keystore exist (raising `FileNotFoundError` at the first failure), then
create the output file's parent directories. -/
def validate_inputs (w : World) (aabFile outputFile bundletoolPath : String)
    (props : List (List Char × List Char)) : Except Err Unit × List Event :=
  if !w.pathExists aabFile then
    (.error (.fileNotFound ("AAB file not found: " ++ aabFile)), [])
  else if !w.pathExists bundletoolPath then
    (.error (.fileNotFound ("Bundletool JAR not found: " ++ bundletoolPath)), [])
  else if !w.pathExists (keystorePath props) then
    (.error (.fileNotFound ("Keystore file not found: " ++ keystorePath props)), [])
  else (.ok (), [.mkdirParents outputFile])

/-- The temporary directory `tempfile.TemporaryDirectory` creates; the
OS-chosen fresh name is abstracted to a fixed one. -/
def tmpDirName : String := "/tmp/bundletool-work"

/-- `temp_apks`: the intermediate APK-set archive inside the temp directory. -/
def tempApksPath : String := tmpDirName ++ "/temp.apks"

/-- The device-spec file written by `_create_device_spec`. -/
def deviceSpecPath : String := tmpDirName ++ "/device_spec.json"

/-- The literal device-spec JSON the script writes. -/
def deviceSpecContent : String :=
  "\x7b\n  \"supportedAbis\": [\"arm64-v8a\"],\n  \"supportedLocales\": [\"en\"],\n  \"screenDensity\": 480,\n  \"sdkVersion\": 34\n\x7d"

/-- The `build-apks` argv (`build_cmd` in the source). -/
def buildCmd (javaCmd bundletoolPath aabFile : String)
    (props : List (List Char × List Char)) : List String :=
  [javaCmd, "-jar", bundletoolPath,
   "build-apks",
   "--bundle", aabFile,
   "--output", tempApksPath,
   "--mode", "universal",
   "--ks", keystorePath props,
   "--ks-pass", "pass:" ++ propStr props "keystore.password",
   "--ks-key-alias", propStr props "key.alias",
   "--key-pass", "pass:" ++ propStr props "key.password"]

/-- The `extract-apks` argv (`extract_cmd` in the source). -/
def extractCmd (javaCmd bundletoolPath : String) : List String :=
  [javaCmd, "-jar", bundletoolPath,
   "extract-apks",
   "--apks", tempApksPath,
   "--output-dir", tmpDirName,
   "--device-spec", deviceSpecPath]

/-- `convert_aab_to_apk`: read the signing properties, validate the inputs,
then inside the scoped temporary directory run `build-apks` (re-raising its
`CalledProcessError` on a non-zero exit), write the device spec, run
`extract-apks` (same failure policy), and copy `universal.apk` to the output
path, raising when the artifact is absent. The temporary directory is removed
on every exit path of the `with` block. Returns the outcome together with the
ordered trace of side effects. -/
def convert_aab_to_apk (w : World)
    (javaCmd bundletoolPath aabFile outputFile signingPropertiesFile : String) :
    Except Err Unit × List Event :=
  match readSigningProperties w signingPropertiesFile with
  | .error e => (.error e, [])
  | .ok props =>
    match validate_inputs w aabFile outputFile bundletoolPath props with
    | (.error e, evs) => (.error e, evs)
    | (.ok _, evs) =>
      let bCmd := buildCmd javaCmd bundletoolPath aabFile props
      if w.buildRun.returncode ≠ 0 then
        (.error (.externalToolFailure bCmd w.buildRun.returncode
            w.buildRun.stdout w.buildRun.stderr),
         evs ++ [.tempCreate, .spawn bCmd, .tempRemove])
      else
        let eCmd := extractCmd javaCmd bundletoolPath
        if w.extractRun.returncode ≠ 0 then
          (.error (.externalToolFailure eCmd w.extractRun.returncode
              w.extractRun.stdout w.extractRun.stderr),
           evs ++ [.tempCreate, .spawn bCmd,
                   .writeFile deviceSpecPath deviceSpecContent,
                   .spawn eCmd, .tempRemove])
        else if w.universalApkExists then
          (.ok (),
           evs ++ [.tempCreate, .spawn bCmd,
                   .writeFile deviceSpecPath deviceSpecContent,
                   .spawn eCmd,
                   .copyFile (tmpDirName ++ "/universal.apk") outputFile,
                   .tempRemove])
        else
          (.error .artifactMissing,
           evs ++ [.tempCreate, .spawn bCmd,
                   .writeFile deviceSpecPath deviceSpecContent,
                   .spawn eCmd, .tempRemove])

/-- `str(e)` for each modelled exception, as interpolated into `main`'s error
line. (For `CalledProcessError` CPython renders the argv with `repr`; the
model joins it with spaces, which no theorem depends on.) -/
def errMsg : Err → String
  | .fileNotFound m => m
  | .missingProperty keys =>
    "Missing required properties: " ++ String.intercalate ", " (keys.map String.mk)
  | .runtimeUnavailable =>
    "Java not found. Please install Java or set JAVA_HOME environment variable."
  | .externalToolFailure cmd rc _ _ =>
    "Command " ++ String.intercalate " " cmd ++
      " returned non-zero exit status " ++ toString rc ++ "."
  | .artifactMissing => "Universal APK not found after extraction"

/-- `main` after argument parsing: construct the wrapper (which resolves
Java), run the conversion, and catch every exception, printing the prefixed
message to standard error and exiting with status 1; exit status 0 otherwise.
Returns the exit code and the lines printed to standard error. -/
def runMain (w : World) (aabFile outputFile bundletoolPath signingFile : String) :
    Nat × List String :=
  match find_java w with
  | .error e => (1, ["❌ Error: " ++ errMsg e])
  | .ok javaCmd =>
    match (convert_aab_to_apk w javaCmd bundletoolPath aabFile outputFile signingFile).1 with
    | .error e => (1, ["❌ Error: " ++ errMsg e])
    | .ok _ => (0, [])

/-! ## Concrete fixtures used to instantiate the theorems -/

/-- A well-formed signing properties file: comment line, blank line, the four
required keys with assorted spacing. -/
def goodLines : List (List Char) :=
  ["# signing configuration".toList,
   "".toList,
   "release.keystore = ks.jks".toList,
   "keystore.password = secret ".toList,
   "key.alias=alias0".toList,
   "key.password=keypass".toList]

/-- A properties file missing `keystore.password` and `key.password`. -/
def missingLines : List (List Char) :=
  ["release.keystore=ks.jks".toList, "key.alias=alias0".toList]

/-- A happy-path environment: Java on the PATH, every file present, both
bundletool invocations succeed, `universal.apk` produced. -/
def baseWorld : World where
  javaProbeOk := true
  javaHome := none
  pathExists := fun _ => true
  fileLines := fun f => if f = "signing.properties" then some goodLines else none
  buildRun := { returncode := 0, stdout := "", stderr := "" }
  extractRun := { returncode := 0, stdout := "", stderr := "" }
  universalApkExists := true

/-- The happy-path environment with the incomplete properties file. -/
def wMissingProps : World :=
  { baseWorld with
    fileLines := fun f => if f = "signing.properties" then some missingLines else none }

/-- The happy-path environment without the input AAB. -/
def wNoAab : World :=
  { baseWorld with pathExists := fun p => p != "app.aab" }

/-- The happy-path environment whose `build-apks` step exits with status 1. -/
def wBuildFail : World :=
  { baseWorld with buildRun := { returncode := 1, stdout := "build-out", stderr := "build-err" } }

/-- No `java` on the PATH, but a usable `JAVA_HOME`. -/
def wJavaHome : World :=
  { baseWorld with javaProbeOk := false, javaHome := some "/usr/lib/jvm" }

/-- No `java` on the PATH and no `JAVA_HOME`. -/
def wNoJava : World :=
  { baseWorld with javaProbeOk := false, javaHome := none }

/-! ## Helper lemmas about the string primitives -/

theorem dropWhile_idem (p : Char → Bool) (l : List Char) :
    (l.dropWhile p).dropWhile p = l.dropWhile p := by
  induction l with
  | nil => rfl
  | cons c t ih =>
    by_cases h : p c
    · simpa [List.dropWhile_cons_of_pos h] using ih
    · simp [List.dropWhile_cons_of_neg h]

theorem lstripP_idem (s : List Char) : lstripP (lstripP s) = lstripP s :=
  dropWhile_idem pyIsSpace s

theorem rstripP_idem (s : List Char) : rstripP (rstripP s) = rstripP s := by
  simp [rstripP, List.reverse_reverse, dropWhile_idem]

theorem rstripP_nil : rstripP [] = [] := rfl

theorem lstripP_cons (c : Char) (t : List Char) :
    lstripP (c :: t) = if pyIsSpace c then lstripP t else c :: t := by
  simp [lstripP, List.dropWhile_cons]

theorem rstripP_eq_nil_iff (t : List Char) :
    rstripP t = [] ↔ t.reverse.dropWhile pyIsSpace = [] := by
  constructor
  · intro h
    have := congrArg List.reverse h
    simpa [rstripP] using this
  · intro h
    simp [rstripP, h]

theorem rstripP_cons (c : Char) (t : List Char) :
    rstripP (c :: t) =
      if rstripP t = [] then (if pyIsSpace c then [] else [c]) else c :: rstripP t := by
  have hrev : (c :: t).reverse = t.reverse ++ [c] := by simp
  by_cases h : rstripP t = []
  · have hd : t.reverse.dropWhile pyIsSpace = [] := (rstripP_eq_nil_iff t).1 h
    by_cases hc : pyIsSpace c
    · simp [rstripP, hrev, List.dropWhile_append, hd, h, hc, List.dropWhile_cons]
    · simp [rstripP, hrev, List.dropWhile_append, hd, h, hc, List.dropWhile_cons]
  · have hd : t.reverse.dropWhile pyIsSpace ≠ [] := fun hd => h ((rstripP_eq_nil_iff t).2 hd)
    rcases he : t.reverse.dropWhile pyIsSpace with _ | ⟨x, xs⟩
    · exact absurd he hd
    · simp [rstripP, hrev, List.dropWhile_append, he, h]

theorem lstripP_rstripP_comm (s : List Char) :
    lstripP (rstripP s) = rstripP (lstripP s) := by
  induction s with
  | nil => rfl
  | cons c t ih =>
    rw [rstripP_cons, lstripP_cons]
    by_cases hc : pyIsSpace c
    · rw [if_pos hc, if_pos hc]
      by_cases h : rstripP t = []
      · rw [if_pos h, ← ih, h]
      · rw [if_neg h, lstripP_cons, if_pos hc, ih]
    · rw [if_neg hc, if_neg hc]
      by_cases h : rstripP t = []
      · rw [if_pos h, rstripP_cons, if_pos h, if_neg hc, lstripP_cons, if_neg hc]
      · rw [if_neg h, lstripP_cons, if_neg hc, rstripP_cons, if_neg h]

theorem pyStrip_lstripP (s : List Char) : pyStrip (lstripP s) = pyStrip s := by
  simp [pyStrip, lstripP_idem]

theorem pyStrip_rstripP (s : List Char) : pyStrip (rstripP s) = pyStrip s := by
  simp [pyStrip, lstripP_rstripP_comm, rstripP_idem]

theorem pyStrip_append_eq (k v : List Char) (hk : lstripP k ≠ []) :
    pyStrip (k ++ '=' :: v) = lstripP k ++ '=' :: rstripP v := by
  have h1 : lstripP (k ++ '=' :: v) = lstripP k ++ '=' :: v := by
    have hemp : (k.dropWhile pyIsSpace).isEmpty = false := by
      rcases he : k.dropWhile pyIsSpace with _ | ⟨x, xs⟩
      · exact absurd (by simp [lstripP, he]) hk
      · simp
    simp [lstripP, List.dropWhile_append, hemp]
  rw [pyStrip, h1]
  have hrev : (lstripP k ++ '=' :: v).reverse = v.reverse ++ '=' :: (lstripP k).reverse := by
    simp
  have heq : pyIsSpace '=' = false := by decide
  by_cases h : rstripP v = []
  · have hd : v.reverse.dropWhile pyIsSpace = [] := (rstripP_eq_nil_iff v).1 h
    simp [rstripP, hrev, List.dropWhile_append, hd, h, heq, List.dropWhile_cons]
  · have hd : v.reverse.dropWhile pyIsSpace ≠ [] := fun hd => h ((rstripP_eq_nil_iff v).2 hd)
    rcases he : v.reverse.dropWhile pyIsSpace with _ | ⟨x, xs⟩
    · exact absurd he hd
    · simp [rstripP, hrev, List.dropWhile_append, he]

theorem splitFirstEq_append (a b : List Char) (ha : '=' ∉ a) :
    splitFirstEq (a ++ '=' :: b) = some (a, b) := by
  induction a with
  | nil => simp [splitFirstEq]
  | cons c t ih =>
    have hc : c ≠ '=' := fun h => ha (h ▸ List.mem_cons_self c t)
    have ht : '=' ∉ t := fun h => ha (List.mem_cons_of_mem c h)
    simp [splitFirstEq, hc, ih ht]

theorem splitFirstEq_none (s : List Char) (hs : '=' ∉ s) : splitFirstEq s = none := by
  induction s with
  | nil => rfl
  | cons c t ih =>
    have hc : c ≠ '=' := fun h => hs (h ▸ List.mem_cons_self c t)
    have ht : '=' ∉ t := fun h => hs (List.mem_cons_of_mem c h)
    simp [splitFirstEq, hc, ih ht]

theorem parseLine_assign (k v : List Char)
    (hk : lstripP k ≠ []) (hh : (lstripP k).head? ≠ some '#') (he : '=' ∉ k) :
    parseLine (k ++ '=' :: v) =
      some (pyStrip k,
        if pyStrip k = kKeystore then unescapeKeystore (pyStrip v) else pyStrip v) := by
  have hs := pyStrip_append_eq k v hk
  have hne : lstripP k ++ '=' :: rstripP v ≠ [] := by simp
  have hhead : (lstripP k ++ '=' :: rstripP v).head? ≠ some '#' := by
    rcases hl : lstripP k with _ | ⟨x, xs⟩
    · exact absurd hl hk
    · rw [hl] at hh
      simpa using hh
  have hmem : '=' ∉ lstripP k := fun h => he ((List.dropWhile_sublist pyIsSpace).subset h)
  have hsplit : splitFirstEq (lstripP k ++ '=' :: rstripP v) = some (lstripP k, rstripP v) :=
    splitFirstEq_append _ _ hmem
  simp only [parseLine]
  rw [hs, if_neg hne, if_neg hhead, hsplit]
  simp [pyStrip_lstripP, pyStrip_rstripP]

theorem parseLine_blank (l : List Char) (h : pyStrip l = []) : parseLine l = none := by
  simp [parseLine, h]

theorem parseLine_comment (l : List Char) (h : (pyStrip l).head? = some '#') :
    parseLine l = none := by
  by_cases h0 : pyStrip l = []
  · simp [parseLine, h0]
  · simp [parseLine, h0, h]

theorem parseLine_no_eq (l : List Char) (h : '=' ∉ pyStrip l) : parseLine l = none := by
  by_cases h0 : pyStrip l = []
  · simp [parseLine, h0]
  · by_cases h1 : (pyStrip l).head? = some '#'
    · simp [parseLine, h0, h1]
    · simp [parseLine, h0, h1, splitFirstEq_none _ h]

/-! ## The claims -/

/-- C2, counterexample: for the raw trimmed keystore value `C\\x` the
escape-sequence decode fails, yet the reader does not return the raw trimmed
value unchanged — it returns `C\x`, the value after the double-backslash
replacement. -/
theorem claim2_counterexample :
    pyStrip "C\\\\x".toList = "C\\\\x".toList
    ∧ uesc (utf8Encode (replColon (replDouble "C\\\\x".toList))) = none
    ∧ unescapeKeystore "C\\\\x".toList = "C\\x".toList
    ∧ unescapeKeystore "C\\\\x".toList ≠ "C\\\\x".toList
    ∧ lookupProp (parseProps ["release.keystore=C\\\\x".toList]) kKeystore =
        some "C\\x".toList := by
  decide

/-- C2 (amended): for a `release.keystore` assignment line the reader stores
the trimmed value transformed by the double-backslash and escaped-colon
replacements followed by the best-effort escape-sequence decode; when the
decode succeeds its result is stored, and when it raises a decode error the
value after the two replacements — not the raw trimmed value — is kept; in
particular `C\:\\keys\\my.jks` is read as `C:\keys\my.jks`. -/
theorem claim2_keystore_unescaping (k v : List Char)
    (hk : lstripP k ≠ []) (hh : (lstripP k).head? ≠ some '#') (he : '=' ∉ k)
    (hkey : pyStrip k = kKeystore) :
    parseLine (k ++ '=' :: v) = some (kKeystore, unescapeKeystore (pyStrip v))
    ∧ (uesc (utf8Encode (replColon (replDouble (pyStrip v)))) = none →
        unescapeKeystore (pyStrip v) = replColon (replDouble (pyStrip v)))
    ∧ (∀ d, uesc (utf8Encode (replColon (replDouble (pyStrip v)))) = some d →
        unescapeKeystore (pyStrip v) = d)
    ∧ parseLine "release.keystore=C\\:\\\\keys\\\\my.jks".toList =
        some (kKeystore, "C:\\keys\\my.jks".toList) := by
  refine ⟨?_, ?_, ?_, by decide⟩
  · have h := parseLine_assign k v hk hh he
    rw [hkey] at h
    simpa using h
  · intro hn
    simp [unescapeKeystore, hn]
  · intro d hd
    simp [unescapeKeystore, hd]

/-- C2, witness: the amended theorem applied to the key `release.keystore`
and the value ` C\\x `, whose decode fails. -/
theorem claim2_witness :
    parseLine ("release.keystore".toList ++ '=' :: " C\\\\x ".toList) =
      some (kKeystore, "C\\x".toList)
    ∧ unescapeKeystore (pyStrip " C\\\\x ".toList) =
        replColon (replDouble (pyStrip " C\\\\x ".toList)) := by
  have h := claim2_keystore_unescaping "release.keystore".toList " C\\\\x ".toList
    (by decide) (by decide) (by decide) (by decide)
  exact ⟨h.1.trans (by decide), h.2.1 (by decide)⟩

/-- C3: when any required signing key is absent after parsing, the reader
fails with `MissingProperty` carrying the filter of all absent required keys,
and that list contains every absent required key, not only the first. -/
theorem claim3_missing_keys_all_reported (w : World) (f : String)
    (lines : List (List Char)) (hf : w.fileLines f = some lines)
    (hmiss : missingKeys (parseProps lines) ≠ []) :
    readSigningProperties w f =
      .error (.missingProperty (missingKeys (parseProps lines)))
    ∧ ∀ k, k ∈ requiredKeys → lookupProp (parseProps lines) k = none →
        k ∈ missingKeys (parseProps lines) := by
  constructor
  · simp [readSigningProperties, hf, hmiss]
  · intro k hk hnone
    exact List.mem_filter.2 ⟨hk, by simp [hnone]⟩

/-- C3, witness: a file missing `keystore.password` and `key.password` is
rejected with both keys named. -/
theorem claim3_witness :
    readSigningProperties wMissingProps "signing.properties" =
      .error (.missingProperty ["keystore.password".toList, "key.password".toList])
    ∧ "key.password".toList ∈ missingKeys (parseProps missingLines) := by
  have h := claim3_missing_keys_all_reported wMissingProps "signing.properties"
    missingLines (by decide) (by decide)
  exact ⟨h.1.trans (by decide), h.2 "key.password".toList (by decide) (by decide)⟩

/-- C4: for a properties file whose parsed mapping has all four required
keys, the reader succeeds and returns exactly the parsed mapping; blank lines
and comment lines contribute no entry; every entry comes from some line; and
an assignment line is split on its first `=` with whitespace trimmed from
both key and value. -/
theorem claim4_wellformed_reader (w : World) (f : String)
    (lines : List (List Char)) (hf : w.fileLines f = some lines)
    (hall : ∀ k, k ∈ requiredKeys → (lookupProp (parseProps lines) k).isSome) :
    readSigningProperties w f = .ok (parseProps lines)
    ∧ (∀ l, pyStrip l = [] → parseLine l = none)
    ∧ (∀ l, (pyStrip l).head? = some '#' → parseLine l = none)
    ∧ (∀ l rest, parseLine l = none → parseProps (l :: rest) = parseProps rest)
    ∧ (∀ kv, kv ∈ parseProps lines → ∃ l, l ∈ lines ∧ parseLine l = some kv)
    ∧ (∀ k v, lstripP k ≠ [] → (lstripP k).head? ≠ some '#' → '=' ∉ k →
        parseLine (k ++ '=' :: v) =
          some (pyStrip k,
            if pyStrip k = kKeystore then unescapeKeystore (pyStrip v)
            else pyStrip v)) := by
  have hmk : missingKeys (parseProps lines) = [] := by
    rw [missingKeys, List.filter_eq_nil_iff]
    intro k hk
    have hs := hall k hk
    cases ho : lookupProp (parseProps lines) k with
    | none => rw [ho] at hs; simp at hs
    | some x => simp [ho]
  refine ⟨by simp [readSigningProperties, hf, hmk], ?_, ?_, ?_, ?_, ?_⟩
  · exact parseLine_blank
  · exact parseLine_comment
  · intro l rest h
    simp [parseProps, List.filterMap_cons, h]
  · intro kv hkv
    exact List.mem_filterMap.1 hkv
  · exact parseLine_assign

/-- C4, witness: the reader accepts the well-formed fixture file, and an
assignment line with spacing is trimmed on both sides. -/
theorem claim4_witness :
    readSigningProperties baseWorld "signing.properties" = .ok (parseProps goodLines)
    ∧ parseLine ("keystore.password ".toList ++ '=' :: " secret ".toList) =
        some ("keystore.password".toList, "secret".toList) := by
  have h := claim4_wellformed_reader baseWorld "signing.properties" goodLines
    (by decide) (by decide)
  refine ⟨h.1, ?_⟩
  have h2 := h.2.2.2.2.2 "keystore.password ".toList " secret ".toList
    (by decide) (by decide) (by decide)
  exact h2.trans (by decide)

/-- C9: a non-blank, non-comment line without `=` is silently skipped: it
parses to no entry and contributes nothing to the mapping. -/
theorem claim9_no_equals_line_skipped (l : List Char) (rest : List (List Char))
    (_h1 : pyStrip l ≠ []) (_h2 : (pyStrip l).head? ≠ some '#')
    (h3 : '=' ∉ pyStrip l) :
    parseLine l = none ∧ parseProps (l :: rest) = parseProps rest := by
  refine ⟨parseLine_no_eq l h3, ?_⟩
  simp [parseProps, List.filterMap_cons, parseLine_no_eq l h3]

/-- C9, witness: the line `this line has no equals sign` is skipped. -/
theorem claim9_witness :
    parseLine "this line has no equals sign".toList = none
    ∧ parseProps ["this line has no equals sign".toList, "a=b".toList] =
        parseProps ["a=b".toList] := by
  exact claim9_no_equals_line_skipped "this line has no equals sign".toList
    ["a=b".toList] (by decide) (by decide) (by decide)

/-- C10: for the keystore value `a\tb` the generic escape-sequence decode
succeeds, the documented double-backslash and escaped-colon replacements do
not change the value, yet the stored value turns the backslash-t into a tab
character — so the fallback branch does not trigger and the altered value is
used as the keystore path. -/
theorem claim10_decode_alters_value :
    replColon (replDouble "a\\tb".toList) = "a\\tb".toList
    ∧ uesc (utf8Encode "a\\tb".toList) = some ['a', Char.ofNat 9, 'b']
    ∧ unescapeKeystore "a\\tb".toList = ['a', Char.ofNat 9, 'b']
    ∧ unescapeKeystore "a\\tb".toList ≠ pyStrip "a\\tb".toList
    ∧ parseLine "release.keystore=a\\tb".toList =
        some (kKeystore, ['a', Char.ofNat 9, 'b']) := by
  decide

/-- C1: when the input AAB path does not exist, `convert_aab_to_apk` fails
with an empty side-effect trace — no subprocess is spawned, neither tool
invocation runs, no directory is created, nothing is written or copied — and
whenever the signing properties were readable the error is the
`FileNotFound` for the AAB. -/
theorem claim1_aab_missing_no_side_effects (w : World)
    (javaCmd bt aab out sp : String) (haab : w.pathExists aab = false) :
    (convert_aab_to_apk w javaCmd bt aab out sp).2 = []
    ∧ isErr (convert_aab_to_apk w javaCmd bt aab out sp).1 = true
    ∧ (∀ props, readSigningProperties w sp = .ok props →
        (convert_aab_to_apk w javaCmd bt aab out sp).1 =
          .error (.fileNotFound ("AAB file not found: " ++ aab))) := by
  cases hr : readSigningProperties w sp with
  | error e =>
    refine ⟨by simp [convert_aab_to_apk, hr], by simp [convert_aab_to_apk, hr, isErr], ?_⟩
    intro props hp
    simp at hp
  | ok props =>
    have hval : validate_inputs w aab out bt props =
        (.error (.fileNotFound ("AAB file not found: " ++ aab)), []) := by
      simp [validate_inputs, haab]
    refine ⟨by simp [convert_aab_to_apk, hr, hval],
      by simp [convert_aab_to_apk, hr, hval, isErr], ?_⟩
    intro props2 hp
    have hpp : props2 = props := by
      injection hp with h
      exact h.symm
    subst hpp
    simp [convert_aab_to_apk, hr, hval]

/-- C1, witness: the happy-path environment without `app.aab`. -/
theorem claim1_witness :
    (convert_aab_to_apk wNoAab "java" "bundletool.jar" "app.aab" "out.apk"
        "signing.properties").2 = []
    ∧ (convert_aab_to_apk wNoAab "java" "bundletool.jar" "app.aab" "out.apk"
        "signing.properties").1 =
      .error (.fileNotFound "AAB file not found: app.aab") := by
  have h := claim1_aab_missing_no_side_effects wNoAab "java" "bundletool.jar"
    "app.aab" "out.apk" "signing.properties" (by decide)
  refine ⟨h.1, ?_⟩
  have h2 := h.2.2 (parseProps goodLines) (by decide)
  exact h2.trans (by decide)

/-- C5: when the `build-apks` invocation exits non-zero, the pipeline fails
with `ExternalToolFailure` carrying that invocation's argv, exit status and
captured stdout/stderr, and the only subprocess in the whole trace is the
build invocation — `extract-apks` never runs. -/
theorem claim5_build_failure_stops_pipeline (w : World)
    (javaCmd bt aab out sp : String) (props : List (List Char × List Char))
    (hprops : readSigningProperties w sp = .ok props)
    (h1 : w.pathExists aab = true) (h2 : w.pathExists bt = true)
    (h3 : w.pathExists (keystorePath props) = true)
    (hfail : w.buildRun.returncode ≠ 0) :
    (convert_aab_to_apk w javaCmd bt aab out sp).1 =
      .error (.externalToolFailure (buildCmd javaCmd bt aab props)
        w.buildRun.returncode w.buildRun.stdout w.buildRun.stderr)
    ∧ spawns (convert_aab_to_apk w javaCmd bt aab out sp).2 =
        [buildCmd javaCmd bt aab props] := by
  have hval : validate_inputs w aab out bt props = (.ok (), [.mkdirParents out]) := by
    simp [validate_inputs, h1, h2, h3]
  constructor
  · simp [convert_aab_to_apk, hprops, hval, hfail]
  · simp [convert_aab_to_apk, hprops, hval, hfail, spawns]

/-- C5, witness: the happy-path environment whose build step exits with
status 1. -/
theorem claim5_witness :
    (convert_aab_to_apk wBuildFail "java" "bundletool.jar" "app.aab" "out.apk"
        "signing.properties").1 =
      .error (.externalToolFailure
        (buildCmd "java" "bundletool.jar" "app.aab" (parseProps goodLines))
        1 "build-out" "build-err")
    ∧ spawns (convert_aab_to_apk wBuildFail "java" "bundletool.jar" "app.aab"
        "out.apk" "signing.properties").2 =
      [buildCmd "java" "bundletool.jar" "app.aab" (parseProps goodLines)] := by
  have h := claim5_build_failure_stops_pipeline wBuildFail "java" "bundletool.jar"
    "app.aab" "out.apk" "signing.properties" (parseProps goodLines)
    (by decide) (by decide) (by decide) (by decide) (by decide)
  exact ⟨h.1.trans (by decide), h.2⟩

/-- C6: every run is atomic with respect to its observable outputs — a copy
to the requested output path appears in the trace exactly when the run
succeeds — and the scoped temporary directory's trace is balanced: either it
was never created, or it was created and then removed. -/
theorem claim6_atomicity_and_cleanup (w : World)
    (javaCmd bt aab out sp : String) :
    producesOutputAt (convert_aab_to_apk w javaCmd bt aab out sp).2 out =
      !isErr (convert_aab_to_apk w javaCmd bt aab out sp).1
    ∧ ((convert_aab_to_apk w javaCmd bt aab out sp).2.filter isTempEvent = []
       ∨ (convert_aab_to_apk w javaCmd bt aab out sp).2.filter isTempEvent =
           [Event.tempCreate, Event.tempRemove]) := by
  cases hr : readSigningProperties w sp with
  | error e =>
    constructor
    · simp [convert_aab_to_apk, hr, producesOutputAt, isErr]
    · left
      simp [convert_aab_to_apk, hr]
  | ok props =>
    by_cases h1 : w.pathExists aab
    · by_cases h2 : w.pathExists bt
      · by_cases h3 : w.pathExists (keystorePath props)
        · have hval : validate_inputs w aab out bt props =
              (.ok (), [.mkdirParents out]) := by
            simp [validate_inputs, h1, h2, h3]
          by_cases hb : w.buildRun.returncode = 0
          · by_cases hx : w.extractRun.returncode = 0
            · by_cases hu : w.universalApkExists
              · constructor
                · simp [convert_aab_to_apk, hr, hval, hb, hx, hu, producesOutputAt,
                    isErr, isTempEvent]
                · right
                  simp [convert_aab_to_apk, hr, hval, hb, hx, hu, isTempEvent]
              · constructor
                · simp [convert_aab_to_apk, hr, hval, hb, hx, hu, producesOutputAt,
                    isErr, isTempEvent]
                · right
                  simp [convert_aab_to_apk, hr, hval, hb, hx, hu, isTempEvent]
            · constructor
              · simp [convert_aab_to_apk, hr, hval, hb, hx, producesOutputAt,
                  isErr, isTempEvent]
              · right
                simp [convert_aab_to_apk, hr, hval, hb, hx, isTempEvent]
          · constructor
            · simp [convert_aab_to_apk, hr, hval, hb, producesOutputAt, isErr,
                isTempEvent]
            · right
              simp [convert_aab_to_apk, hr, hval, hb, isTempEvent]
        · have hval : validate_inputs w aab out bt props =
              (.error (.fileNotFound ("Keystore file not found: " ++
                keystorePath props)), []) := by
            simp [validate_inputs, h1, h2, h3]
          constructor
          · simp [convert_aab_to_apk, hr, hval, producesOutputAt, isErr]
          · left
            simp [convert_aab_to_apk, hr, hval]
      · have hval : validate_inputs w aab out bt props =
            (.error (.fileNotFound ("Bundletool JAR not found: " ++ bt)), []) := by
          simp [validate_inputs, h1, h2]
        constructor
        · simp [convert_aab_to_apk, hr, hval, producesOutputAt, isErr]
        · left
          simp [convert_aab_to_apk, hr, hval]
    · have hval : validate_inputs w aab out bt props =
          (.error (.fileNotFound ("AAB file not found: " ++ aab)), []) := by
        simp [validate_inputs, h1]
      constructor
      · simp [convert_aab_to_apk, hr, hval, producesOutputAt, isErr]
      · left
        simp [convert_aab_to_apk, hr, hval]

/-- C7: the runtime locator first accepts the plain `java` command when the
probe succeeds; otherwise it returns `JAVA_HOME/bin/java` when `JAVA_HOME` is
set, non-empty and that file exists; in every remaining case — no `JAVA_HOME`,
an empty `JAVA_HOME`, or a missing `bin/java` beneath it — it fails with the
fatal `RuntimeUnavailable` error. -/
theorem claim7_find_java (w : World) :
    (w.javaProbeOk = true → find_java w = .ok "java")
    ∧ (∀ h, w.javaProbeOk = false → w.javaHome = some h → h ≠ "" →
        w.pathExists (h ++ "/bin/java") = true →
        find_java w = .ok (h ++ "/bin/java"))
    ∧ (w.javaProbeOk = false → w.javaHome = none →
        find_java w = .error .runtimeUnavailable)
    ∧ (w.javaProbeOk = false → w.javaHome = some "" →
        find_java w = .error .runtimeUnavailable)
    ∧ (∀ h, w.javaProbeOk = false → w.javaHome = some h → h ≠ "" →
        w.pathExists (h ++ "/bin/java") = false →
        find_java w = .error .runtimeUnavailable) := by
  refine ⟨?_, ?_, ?_, ?_, ?_⟩
  · intro hp
    simp [find_java, hp]
  · intro h hp hh hne hex
    simp [find_java, hp, hh, hne, hex]
  · intro hp hh
    simp [find_java, hp, hh]
  · intro hp hh
    simp [find_java, hp, hh]
  · intro h hp hh hne hex
    simp [find_java, hp, hh, hne, hex]

/-- C7, witness: the locator on three concrete environments — probe
succeeds, probe fails with a usable `JAVA_HOME`, probe fails with no
`JAVA_HOME`. -/
theorem claim7_witness :
    find_java baseWorld = .ok "java"
    ∧ find_java wJavaHome = .ok "/usr/lib/jvm/bin/java"
    ∧ find_java wNoJava = .error .runtimeUnavailable := by
  refine ⟨(claim7_find_java baseWorld).1 (by decide), ?_, ?_⟩
  · have h := (claim7_find_java wJavaHome).2.1 "/usr/lib/jvm" (by decide) (by decide)
      (by decide) (by decide)
    exact h.trans (by decide)
  · exact (claim7_find_java wNoJava).2.2.1 (by decide) (by decide)

/-- C8: the entry point exits with status 0 exactly when Java resolution and
the whole conversion succeed, printing nothing to the error stream; on every
caught error it exits with status 1 and prints a single error-stream line
prefixed with the failure indicator. -/
theorem claim8_exit_codes (w : World) (aab out bt sp : String) :
    ((runMain w aab out bt sp).1 = 0 ∨ (runMain w aab out bt sp).1 = 1)
    ∧ ((runMain w aab out bt sp).1 = 0 ↔
        ∃ j, find_java w = .ok j ∧
          isErr (convert_aab_to_apk w j bt aab out sp).1 = false)
    ∧ ((runMain w aab out bt sp).1 = 0 → (runMain w aab out bt sp).2 = [])
    ∧ ((runMain w aab out bt sp).1 = 1 →
        ∃ r, (runMain w aab out bt sp).2 = ["❌ Error: " ++ r]) := by
  cases hj : find_java w with
  | error e =>
    refine ⟨Or.inr (by simp [runMain, hj]), ?_, ?_, ?_⟩
    · simp [runMain, hj]
    · intro h0
      simp [runMain, hj] at h0
    · intro _
      exact ⟨errMsg e, by simp [runMain, hj]⟩
  | ok j =>
    cases hc : (convert_aab_to_apk w j bt aab out sp).1 with
    | error e =>
      refine ⟨Or.inr (by simp [runMain, hj, hc]), ?_, ?_, ?_⟩
      · simp [runMain, hj, hc, isErr]
      · intro h0
        simp [runMain, hj, hc] at h0
      · intro _
        exact ⟨errMsg e, by simp [runMain, hj, hc]⟩
    | ok u =>
      refine ⟨Or.inl (by simp [runMain, hj, hc]), ?_, ?_, ?_⟩
      · simp [runMain, hj, hc, isErr]
      · intro _
        simp [runMain, hj, hc]
      · intro h1
        simp [runMain, hj, hc] at h1

/-- C8, witness: exit 0 with a silent error stream on the happy path; exit 1
with one prefixed error line when the build step fails. -/
theorem claim8_witness :
    (runMain baseWorld "app.aab" "out.apk" "bundletool.jar" "signing.properties").2 = []
    ∧ ∃ r, (runMain wBuildFail "app.aab" "out.apk" "bundletool.jar"
        "signing.properties").2 = ["❌ Error: " ++ r] := by
  exact ⟨(claim8_exit_codes baseWorld "app.aab" "out.apk" "bundletool.jar"
      "signing.properties").2.2.1 (by decide),
    (claim8_exit_codes wBuildFail "app.aab" "out.apk" "bundletool.jar"
      "signing.properties").2.2.2 (by decide)⟩

end AabToApk
